import Mathlib

/-!
Verification of the api-gateway-service core against its specification.

The Python sources are shallowly embedded as Lean definitions:
  * `app/core/circuit_breaker.py`  → `CircuitBreaker` and its operations
  * `app/core/rate_limiter.py`     → `check_rate_limit` over `RLStore`
  * `app/core/redis_client.py`     → status-store / idempotency operations
  * `app/route/notification.py`    → the four route handlers

Python exceptions are modelled as a (class name, message) pair; a raising
operation is modelled by an `Except PyExc` outcome; wall-clock instants are
integers (seconds); Redis is modelled explicitly as state that each
operation reads and returns.
-/

/-- Python exception value: the class name of the exception and its message.
A bare `raise Exception("m")` is modelled as `⟨"Exception", "m"⟩`. -/
structure PyExc where
  cls : String
  msg : String
deriving DecidableEq, Repr

/-- States of the circuit breaker (`CircuitState` in `circuit_breaker.py`). -/
inductive CircuitState where
  | closed
  | open_
  | half_open
deriving DecidableEq, Repr

/-- Mutable state of `CircuitBreaker` (`circuit_breaker.py`, lines 35-41).
`timeout_duration` and timestamps are in seconds. -/
structure CircuitBreaker where
  fail_max : Nat
  timeout_duration : Int
  failure_count : Nat
  last_failure_time : Option Int
  state : CircuitState
deriving DecidableEq, Repr

/-- Fresh breaker as built by `CircuitBreaker.__init__`. -/
def initCB (fmax : Nat) (tdur : Int) : CircuitBreaker :=
  { fail_max := fmax
    timeout_duration := tdur
    failure_count := 0
    last_failure_time := none
    state := CircuitState.closed }

/-- Model of `CircuitBreaker._should_attempt_reset` (lines 116-122): true when
no failure was recorded, or when at least `timeout_duration` seconds elapsed
since `last_failure_time`. -/
def CircuitBreaker.shouldAttemptReset (cb : CircuitBreaker) (now : Int) : Bool :=
  match cb.last_failure_time with
  | none => true
  | some t => decide (cb.timeout_duration ≤ now - t)

/-- Model of `CircuitBreaker._on_failure` (lines 99-114): increment the
counter, stamp the failure time, and open the circuit once the counter
reaches `fail_max`. -/
def CircuitBreaker.onFailure (cb : CircuitBreaker) (now : Int) : CircuitBreaker :=
  let fc := cb.failure_count + 1
  { cb with
    failure_count := fc
    last_failure_time := some now
    state := if cb.fail_max ≤ fc then CircuitState.open_ else cb.state }

/-- Model of `CircuitBreaker.reset` (lines 144-149). -/
def CircuitBreaker.resetCB (cb : CircuitBreaker) : CircuitBreaker :=
  { cb with
    failure_count := 0
    last_failure_time := none
    state := CircuitState.closed }

/-- Result of one `CircuitBreaker.call`: the raised-or-returned outcome, the
breaker state afterwards, and whether the wrapped operation was invoked. -/
structure CallResult where
  outcome : Except PyExc Unit
  cb : CircuitBreaker
  invoked : Bool
deriving Repr

/-- Error raised by `call` when the circuit is open (line 71 of
`circuit_breaker.py`): a plain `Exception` with a fixed message. -/
def circuitOpenExc : PyExc :=
  { cls := "Exception", msg := "Service temporarily unavailable (circuit breaker open)" }

/-- Body of the `try` block in `CircuitBreaker.call` (lines 73-91): run the
wrapped operation; on success zero the counter and close; on failure apply
`_on_failure` and re-raise the original error. -/
def CircuitBreaker.runOp (cb : CircuitBreaker) (now : Int)
    (op : Except PyExc Unit) : CallResult :=
  match op with
  | Except.ok _ =>
      { outcome := Except.ok ()
        cb := { cb with failure_count := 0, state := CircuitState.closed }
        invoked := true }
  | Except.error e =>
      { outcome := Except.error e
        cb := cb.onFailure now
        invoked := true }

/-- Model of `CircuitBreaker.call` (lines 43-91). `now` is the wall-clock
instant of the attempt; `op` is the outcome the wrapped operation would
produce if invoked. -/
def CircuitBreaker.call (cb : CircuitBreaker) (now : Int)
    (op : Except PyExc Unit) : CallResult :=
  match cb.state with
  | CircuitState.open_ =>
      if cb.shouldAttemptReset now then
        CircuitBreaker.runOp { cb with state := CircuitState.half_open } now op
      else
        { outcome := Except.error circuitOpenExc
          cb := cb
          invoked := false }
  | _ => cb.runOp now op

/-- Externally observable event on a breaker: a call attempt, or a manual
reset. -/
inductive CBEvent where
  | callEv (now : Int) (op : Except PyExc Unit)
  | resetEv
deriving Repr

/-- Apply one event to a breaker. -/
def applyCBEvent (cb : CircuitBreaker) : CBEvent → CircuitBreaker
  | CBEvent.callEv now op => (cb.call now op).cb
  | CBEvent.resetEv => cb.resetCB

/-- Run a sequence of events from a breaker state. -/
def runCBEvents (cb : CircuitBreaker) (es : List CBEvent) : CircuitBreaker :=
  es.foldl applyCBEvent cb

/-- Run a list of failing calls (each a time / raised-error pair). -/
def runFails (cb : CircuitBreaker) (l : List (Int × PyExc)) : CircuitBreaker :=
  runCBEvents cb (l.map (fun p => CBEvent.callEv p.1 (Except.error p.2)))

/-- Invariant tying the breaker state to its failure counter: whenever the
circuit is open or half-open, the counter has reached `fail_max`. -/
def goodCB (cb : CircuitBreaker) : Prop :=
  (cb.state = CircuitState.open_ ∨ cb.state = CircuitState.half_open) →
    cb.fail_max ≤ cb.failure_count

lemma goodCB_init (fmax : Nat) (tdur : Int) : goodCB (initCB fmax tdur) := by
  intro h
  rcases h with h | h <;> simp [initCB] at h

lemma call_preserves_fail_max (cb : CircuitBreaker) (now : Int)
    (op : Except PyExc Unit) : (cb.call now op).cb.fail_max = cb.fail_max := by
  unfold CircuitBreaker.call CircuitBreaker.runOp CircuitBreaker.onFailure
  cases h : cb.state <;> cases op <;> simp [h] <;> split <;> rfl

lemma goodCB_runOp (cb : CircuitBreaker) (now : Int) (op : Except PyExc Unit)
    (h : goodCB cb) : goodCB (cb.runOp now op).cb := by
  unfold CircuitBreaker.runOp CircuitBreaker.onFailure
  cases op with
  | ok _ =>
      intro hs
      rcases hs with hs | hs <;> simp at hs
  | error e =>
      intro hs
      by_cases hm : cb.fail_max ≤ cb.failure_count + 1
      · simpa using hm
      · simp only [if_neg hm] at hs ⊢
        have := h hs
        omega

lemma goodCB_call (cb : CircuitBreaker) (now : Int) (op : Except PyExc Unit)
    (h : goodCB cb) : goodCB (cb.call now op).cb := by
  unfold CircuitBreaker.call
  cases hs : cb.state with
  | open_ =>
      by_cases hr : cb.shouldAttemptReset now
      · simp only [hr, if_pos]
        apply goodCB_runOp
        intro _
        exact h (Or.inl hs)
      · rw [if_neg hr]
        intro _
        exact h (Or.inl hs)
  | closed =>
      simp only
      exact goodCB_runOp cb now op h
  | half_open =>
      simp only
      exact goodCB_runOp cb now op h

lemma goodCB_reset (cb : CircuitBreaker) : goodCB cb.resetCB := by
  intro h
  rcases h with h | h <;> simp [CircuitBreaker.resetCB] at h

lemma goodCB_event (cb : CircuitBreaker) (e : CBEvent) (h : goodCB cb) :
    goodCB (applyCBEvent cb e) := by
  cases e with
  | callEv now op => exact goodCB_call cb now op h
  | resetEv => exact goodCB_reset cb

/-- Every breaker reachable from a fresh one by calls and resets satisfies
the `goodCB` invariant. -/
lemma goodCB_reachable (fmax : Nat) (tdur : Int) (es : List CBEvent) :
    goodCB (runCBEvents (initCB fmax tdur) es) := by
  suffices h : ∀ cb, goodCB cb → goodCB (runCBEvents cb es) from
    h _ (goodCB_init fmax tdur)
  induction es with
  | nil => intro cb h; exact h
  | cons e rest ih =>
      intro cb h
      exact ih _ (goodCB_event cb e h)

/-!
Rate limiter (`app/core/rate_limiter.py` and the rate-limit helpers of
`app/core/redis_client.py`), with the store reachable.
-/

/-- State of one `rate_limit:<identifier>` Redis key: the counter value
(0 when the key is absent — Redis `INCR` on an absent key yields 1) and the
expiry window set on it, if any. -/
structure RLStore where
  count : Nat
  ttl : Option Nat
deriving DecidableEq, Repr

/-- Fresh (absent) rate-limit key. -/
def freshRL : RLStore := { count := 0, ttl := none }

/-- Model of `RedisClient.increment_rate_limit` (lines 253-263) with the
store reachable: `INCR` the counter, and set the expiry to `window` only
when the resulting count is 1. Returns the new count and the new key
state. -/
def increment_rate_limit (s : RLStore) (window : Nat) : Nat × RLStore :=
  let c := s.count + 1
  (c, { count := c, ttl := if c = 1 then some window else s.ttl })

/-- Model of the `except` arm of `RedisClient.increment_rate_limit`
(lines 264-266): any failure of the increment is swallowed and reported as
count 0. `raw` is the outcome of the underlying Redis commands. -/
def increment_rate_limit_failing (raw : Except PyExc Nat) : Nat :=
  match raw with
  | Except.ok c => c
  | Except.error _ => 0

/-- Model of `RateLimiter.check_rate_limit` (lines 43-68) with the store
reachable: increment, then allow iff the new count does not exceed
`maxReq`. -/
def check_rate_limit (s : RLStore) (maxReq window : Nat) : Bool × RLStore :=
  let r := increment_rate_limit s window
  (decide (r.1 ≤ maxReq), r.2)

/-- Decision `check_rate_limit` takes once the increment has produced a
count `c`: line 54 of `rate_limiter.py`, `if current_count > max_req:
return False`, else `return True`. -/
def rate_limit_decision (c : Nat) (maxReq : Nat) : Bool :=
  decide (c ≤ maxReq)

/-- Model of the outer `except` arm of `RateLimiter.check_rate_limit`
(lines 70-73): if anything in the body raises, the request is allowed
(fail open). `body` is the outcome of the body. -/
def check_rate_limit_failing (body : Except PyExc Bool) : Bool :=
  match body with
  | Except.ok b => b
  | Except.error _ => true

/-- Run `n` consecutive `check_rate_limit` calls against one key,
discarding the verdicts. -/
def runChecks (s : RLStore) (maxReq window : Nat) : Nat → RLStore
  | 0 => s
  | Nat.succ n => (check_rate_limit (runChecks s maxReq window n) maxReq window).2

/-- Verdict of the `n`-th call (1-based) in a run of consecutive
`check_rate_limit` calls against a fresh key. -/
def nthCheckAllowed (maxReq window n : Nat) : Bool :=
  (check_rate_limit (runChecks freshRL maxReq window (n - 1)) maxReq window).1

lemma runChecks_count (s : RLStore) (maxReq window : Nat) (n : Nat) :
    (runChecks s maxReq window n).count = s.count + n := by
  induction n with
  | zero => rfl
  | succ n ih =>
      simp [runChecks, check_rate_limit, increment_rate_limit, ih]
      omega

lemma runChecks_ttl_fresh (maxReq window : Nat) (n : Nat) (h : 1 ≤ n) :
    (runChecks freshRL maxReq window n).ttl = some window := by
  induction n with
  | zero => omega
  | succ n ih =>
      by_cases hn : 1 ≤ n
      · have hc : (runChecks freshRL maxReq window n).count = n := by
          simpa [freshRL] using runChecks_count freshRL maxReq window n
        simp [runChecks, check_rate_limit, increment_rate_limit, hc, ih hn]
      · interval_cases n
        simp [runChecks, check_rate_limit, increment_rate_limit, freshRL]

/-!
Status store (`app/core/redis_client.py`, status and idempotency sections).
-/

/-- Notification status record, mirroring the dict written at step 8 of
`send_notification` (route lines 114-124) and the fields merged by the
status-update path (route lines 235-241). -/
structure StatusData where
  notification_id : String
  status : String
  notification_type : String
  created_at : Option Int
  user_id : Option String
  template_code : Option String
  updated_at : Option Int
  error_message : Option (Option String)
deriving DecidableEq, Repr

/-- Contents of one status-update request as assembled by the route
(`notification.py` lines 235-241). -/
structure StatusUpdate where
  notification_id : String
  status : String
  notification_type : String
  updated_at : Int
  error_message : Option String
deriving DecidableEq, Repr

/-- Python `current.update(updates)` for the fixed update dict of the
status-update route: the five keys of the update overwrite the current
record, all other keys are kept. -/
def applyStatusUpdate (cur : StatusData) (u : StatusUpdate) : StatusData :=
  { cur with
    notification_id := u.notification_id
    status := u.status
    notification_type := u.notification_type
    updated_at := some u.updated_at
    error_message := some u.error_message }

/-- The status store: map from `notification_id` to its record. -/
def StatusStore : Type := String → Option StatusData

/-- Model of `RedisClient.get_notification_status` (lines 84-106):
when the store is reachable, return the record (or none if absent); when
the underlying `GET` raises, the exception is caught and the call returns
none — indistinguishable from an absent record. -/
def get_notification_status (reachable : Bool) (store : StatusStore)
    (nid : String) : Option StatusData :=
  if reachable then store nid else none

/-- Model of `RedisClient.set_notification_status` (lines 57-82): on a
reachable store write the record and return true; when `SETEX` raises, the
exception is caught, nothing is written, and the call returns false. -/
def set_notification_status (reachable : Bool) (store : StatusStore)
    (nid : String) (d : StatusData) : Bool × StatusStore :=
  if reachable then
    (true, fun k => if k = nid then some d else store k)
  else
    (false, store)

/-- Model of `RedisClient.update_notification_status` (lines 108-136) on a
reachable store: read the current record; if absent return false and write
nothing; otherwise merge the update and write the result back. -/
def update_notification_status (store : StatusStore) (nid : String)
    (u : StatusUpdate) : Bool × StatusStore :=
  match get_notification_status true store nid with
  | none => (false, store)
  | some cur => set_notification_status true store nid (applyStatusUpdate cur u)

/-!
Response models (`app/models/responses.py`) restricted to the fields each
route actually populates, and the route handlers of
`app/route/notification.py`.
-/

/-- Pagination metadata (`PaginationMeta` in `responses.py`). -/
structure PaginationMeta where
  total : Int
  limit : Int
  page : Int
  total_pages : Int
  has_next : Bool
  has_previous : Bool
deriving DecidableEq, Repr

/-- Result of the status-query route `GET
/api/v1/notifications/{id}/status`. -/
inductive StatusGetResult where
  | success (d : StatusData)
  | httpError (code : Nat) (detail : String)
deriving DecidableEq, Repr

/-- Model of the `get_notification_status` route handler
(`notification.py` lines 169-200), after authentication: read the record
from Redis, answer 404 when that read yields nothing, otherwise return the
record in a success envelope. -/
def get_notification_status_route (reachable : Bool) (store : StatusStore)
    (nid : String) : StatusGetResult :=
  match get_notification_status reachable store nid with
  | none => StatusGetResult.httpError 404 ("Notification " ++ nid ++ " not found")
  | some d => StatusGetResult.success d

/-- Body of a status-update request (`StatusUpdateRequest` in
`requests.py`). -/
structure StatusUpdateRequest where
  notification_id : String
  status : String
  timestamp : Option Int
  error : Option String
deriving DecidableEq, Repr

/-- Result of the status-update route `POST
/api/v1/{notification_preference}/status/`. -/
inductive UpdateResult where
  | success (nid : String) (newStatus : String)
  | httpError (code : Nat) (detail : String)
deriving DecidableEq, Repr

/-- Model of the `update_notification_status` route handler
(`notification.py` lines 208-279) on a reachable store: validate the
preference, assemble the update dict (`request.timestamp or utcnow()` is
`timestamp.getD now`), apply `RedisClient.update_notification_status`, and
answer 404 when it reports failure. -/
def update_notification_status_route (pref : String)
    (req : StatusUpdateRequest) (now : Int) (store : StatusStore) :
    UpdateResult × StatusStore :=
  if pref = "email" ∨ pref = "push" then
    let u : StatusUpdate :=
      { notification_id := req.notification_id
        status := req.status
        notification_type := pref
        updated_at := req.timestamp.getD now
        error_message := req.error }
    let r := update_notification_status store req.notification_id u
    if r.1 then (UpdateResult.success req.notification_id req.status, r.2)
    else
      (UpdateResult.httpError 404
        ("Notification " ++ req.notification_id ++ " not found"), r.2)
  else
    (UpdateResult.httpError 400
      "Invalid notification preference. Must be 'email' or 'push'", store)

/-- Python floor division `a // b`: raises `ZeroDivisionError` when `b = 0`,
otherwise rounds toward negative infinity. -/
def pyFloorDiv (a b : Int) : Except PyExc Int :=
  if b = 0 then
    Except.error { cls := "ZeroDivisionError"
                   msg := "integer division or modulo by zero" }
  else Except.ok (Int.fdiv a b)

/-- Normalise one Python slice bound for a list of length `n`: negative
indices count from the end, and both directions clamp into `[0, n]`. -/
def pySliceIdx (n : Nat) (i : Int) : Nat :=
  if i < 0 then ((n : Int) + i).toNat else min i.toNat n

/-- Python list slice `l[s:e]` (step 1). -/
def pySlice {α : Type} (l : List α) (s e : Int) : List α :=
  (l.take (pySliceIdx l.length e)).drop (pySliceIdx l.length s)

/-- Model of `RedisClient.get_user_notifications` (lines 191-235): scan the
status records, keep those of the given user, and slice out the requested
page; any store failure is caught and reported as an empty page with total
0. Returns (items, total). -/
def get_user_notifications (reachable : Bool) (store : List StatusData)
    (uid : String) (page limit : Int) : List StatusData × Int :=
  if reachable then
    let keys := store.filter (fun d => d.user_id = some uid)
    let start := (page - 1) * limit
    (pySlice keys start (start + limit), (keys.length : Int))
  else ([], 0)

/-- Result of the list route `GET /api/v1/notifications`. -/
inductive ListResult where
  | success (items : List StatusData) (meta : PaginationMeta)
  | httpError (code : Nat) (detail : String)
deriving DecidableEq, Repr

/-- Model of the `list_notifications` route handler (`notification.py`
lines 286-327), after authentication: fetch the user's page, compute
`total_pages = (total + limit - 1) // limit`, and build the pagination
meta; any exception in the body — in particular `ZeroDivisionError` — is
caught by the handler's own `except Exception` and converted to a 500
response. -/
def list_notifications (reachable : Bool) (store : List StatusData)
    (uid : String) (page limit : Int) : ListResult :=
  let r := get_user_notifications reachable store uid page limit
  match pyFloorDiv (r.2 + limit - 1) limit with
  | Except.error _ => ListResult.httpError 500 "Failed to retrieve notifications"
  | Except.ok tp =>
      ListResult.success r.1
        { total := r.2
          limit := limit
          page := page
          total_pages := tp
          has_next := decide (page < tp)
          has_previous := decide (1 < page) }

/-!
Accept-and-queue workflow (`send_notification`, `notification.py` lines
35-162), with the key-value store reachable. The breaker, the rate-limit
counters, the status store, the idempotency cache and the list of messages
accepted by the broker are carried in one explicit state.
-/

/-- Template variables (`UserData` in `requests.py`); `meta` is an opaque
key-value map. -/
structure UserData where
  name : String
  link : String
  meta : Option (List (String × String))
deriving DecidableEq, Repr

/-- Body of a send request (`NotificationRequest` in `requests.py`), after
schema validation; the source field `variables` is rendered `variables_`
because `variables` is reserved in Lean. -/
structure NotificationRequest where
  notification_type : String
  user_id : String
  template_code : String
  variables_ : UserData
  request_id : String
  priority : Nat
  metadata : Option (List (String × String))
deriving DecidableEq, Repr

/-- Queue message assembled at step 5 of `send_notification` (route lines
78-93). -/
structure Message where
  notification_id : String
  correlation_id : String
  user_id : String
  notification_type : String
  template_code : String
  var_name : String
  var_link : String
  var_meta : Option (List (String × String))
  priority : Nat
  metadata : Option (List (String × String))
  timestamp : Int
  retry_count : Nat
deriving DecidableEq, Repr

/-- The `data` dict of a successful send response (route lines 129-134). -/
structure SendData where
  notification_id : String
  status : String
  request_id : String
  notification_type : String
deriving DecidableEq, Repr

/-- The `StandardResponse` envelope as populated by the send route (lines
127-138). -/
structure SendResponse where
  success : Bool
  data : Option SendData
  message : String
  error : Option String
  meta : Option PaginationMeta
deriving DecidableEq, Repr

/-- Fresh notification id: `uuid.uuid4()` at step 4 of the route is
modelled as drawing the next value of an id counter, so ids are fresh and
never reused. -/
def mkNotificationId (n : Nat) : String :=
  "uuid-" ++ toString n

/-- State visible to the send route: per-identifier rate-limit keys, the
idempotency cache (`idempotent:<request_id>` keys; the cached JSON
round-trips to the response it encodes, so the cache holds responses), the
status store, the messages accepted by the broker, the breaker, and the id
counter. -/
structure GatewayState where
  rl : String → RLStore
  idemCache : String → Option SendResponse
  statusStore : StatusStore
  published : List Message
  breaker : CircuitBreaker
  nextId : Nat

/-- Queue message assembled at step 5 of the route (lines 78-93) for a
fresh `nid`, correlation id `corr` and request timestamp `now`. -/
def jobMessage (corr : String) (req : NotificationRequest) (nid : String)
    (now : Int) : Message :=
  { notification_id := nid
    correlation_id := corr
    user_id := req.user_id
    notification_type := req.notification_type
    template_code := req.template_code
    var_name := req.variables_.name
    var_link := req.variables_.link
    var_meta := req.variables_.meta
    priority := req.priority
    metadata := req.metadata
    timestamp := now
    retry_count := 0 }

/-- Initial status record written at step 8 of the route (lines 114-124). -/
def pendingStatus (req : NotificationRequest) (nid : String) (now : Int) :
    StatusData :=
  { notification_id := nid
    status := "pending"
    notification_type := req.notification_type
    created_at := some now
    user_id := some req.user_id
    template_code := some req.template_code
    updated_at := none
    error_message := none }

/-- Success envelope built at step 9 of the route (lines 127-138). -/
def sendResponseFor (req : NotificationRequest) (nid : String) : SendResponse :=
  { success := true
    data := some { notification_id := nid
                   status := "pending"
                   request_id := req.request_id
                   notification_type := req.notification_type }
    message := "Notification queued for processing"
    error := none
    meta := none }

/-- Route result: a 202 success envelope or an HTTPException. -/
inductive SendResult where
  | accepted (r : SendResponse)
  | httpError (code : Nat) (detail : String)
deriving DecidableEq, Repr

/-- Model of the `send_notification` route handler (`notification.py`
lines 35-162) after authentication, with the key-value store reachable.
`uid` is the authenticated caller, `corr` the correlation id, `now` the
request timestamp, `nowCall` the instant of the breaker-guarded publish,
and `pubOutcome` the outcome `rabbitmq_publisher.publish_message` would
produce if invoked. Steps, in source order: rate limit (429 on reject),
idempotency lookup (cache hit short-circuits), id generation, message
assembly, breaker-guarded publish (503 on any raise), status write,
response assembly, idempotency cache write. -/
def send_notification (maxReq window : Nat) (uid corr : String)
    (req : NotificationRequest) (now nowCall : Int)
    (pubOutcome : Except PyExc Unit) (st : GatewayState) :
    SendResult × GatewayState :=
  let rlRes := check_rate_limit (st.rl uid) maxReq window
  let st1 : GatewayState :=
    { st with rl := fun k => if k = uid then rlRes.2 else st.rl k }
  if rlRes.1 then
    match st1.idemCache req.request_id with
    | some cached => (SendResult.accepted cached, st1)
    | none =>
      let nid := mkNotificationId st1.nextId
      let st2 : GatewayState := { st1 with nextId := st1.nextId + 1 }
      let msg : Message := jobMessage corr req nid now
      let cres := st2.breaker.call nowCall pubOutcome
      let st3 : GatewayState := { st2 with breaker := cres.cb }
      match cres.outcome with
      | Except.error _ =>
          (SendResult.httpError 503 "Notification service temporarily unavailable", st3)
      | Except.ok _ =>
          let st4 : GatewayState := { st3 with published := st3.published ++ [msg] }
          let sd : StatusData := pendingStatus req nid now
          let st5 : GatewayState :=
            { st4 with statusStore := (set_notification_status true st4.statusStore nid sd).2 }
          let resp : SendResponse := sendResponseFor req nid
          let st6 : GatewayState :=
            { st5 with idemCache := fun k => if k = req.request_id then some resp else st5.idemCache k }
          (SendResult.accepted resp, st6)
  else
    (SendResult.httpError 429 "Rate limit exceeded. Please try again later.", st1)

/-!
Helper lemmas about `CircuitBreaker.call`.
-/

lemma runFails_nil (cb : CircuitBreaker) : runFails cb [] = cb := rfl

lemma runFails_cons (cb : CircuitBreaker) (p : Int × PyExc)
    (rest : List (Int × PyExc)) :
    runFails cb (p :: rest) = runFails (cb.call p.1 (Except.error p.2)).cb rest := rfl

lemma call_state_closed (cb : CircuitBreaker) (now : Int)
    (op : Except PyExc Unit) (h : cb.state = CircuitState.closed) :
    cb.call now op = cb.runOp now op := by
  unfold CircuitBreaker.call
  rw [h]

lemma call_state_half_open (cb : CircuitBreaker) (now : Int)
    (op : Except PyExc Unit) (h : cb.state = CircuitState.half_open) :
    cb.call now op = cb.runOp now op := by
  unfold CircuitBreaker.call
  rw [h]

lemma call_open_reject (cb : CircuitBreaker) (now : Int)
    (op : Except PyExc Unit) (h : cb.state = CircuitState.open_)
    (hr : cb.shouldAttemptReset now = false) :
    cb.call now op =
      { outcome := Except.error circuitOpenExc, cb := cb, invoked := false } := by
  unfold CircuitBreaker.call
  rw [h]
  simp [hr]

lemma call_open_probe (cb : CircuitBreaker) (now : Int)
    (op : Except PyExc Unit) (h : cb.state = CircuitState.open_)
    (hr : cb.shouldAttemptReset now = true) :
    cb.call now op =
      CircuitBreaker.runOp { cb with state := CircuitState.half_open } now op := by
  unfold CircuitBreaker.call
  rw [h]
  simp [hr]

lemma shouldAttemptReset_false (cb : CircuitBreaker) (t now : Int)
    (hl : cb.last_failure_time = some t)
    (hlt : now - t < cb.timeout_duration) :
    cb.shouldAttemptReset now = false := by
  unfold CircuitBreaker.shouldAttemptReset
  rw [hl]
  simp only [decide_eq_false_iff_not]
  omega

lemma shouldAttemptReset_true (cb : CircuitBreaker) (t now : Int)
    (hl : cb.last_failure_time = some t)
    (hge : cb.timeout_duration ≤ now - t) :
    cb.shouldAttemptReset now = true := by
  unfold CircuitBreaker.shouldAttemptReset
  rw [hl]
  simpa using hge

lemma runOp_invoked (cb : CircuitBreaker) (now : Int) (op : Except PyExc Unit) :
    (cb.runOp now op).invoked = true := by
  cases op <;> rfl

lemma runOp_ok_state (cb : CircuitBreaker) (now : Int) :
    ((cb.runOp now (Except.ok ())).cb.state = CircuitState.closed ∧
     (cb.runOp now (Except.ok ())).cb.failure_count = 0) := ⟨rfl, rfl⟩

lemma runOp_error_cb (cb : CircuitBreaker) (now : Int) (e : PyExc) :
    (cb.runOp now (Except.error e)).cb = cb.onFailure now := rfl

lemma onFailure_state_open (cb : CircuitBreaker) (now : Int)
    (h : cb.fail_max ≤ cb.failure_count + 1) :
    (cb.onFailure now).state = CircuitState.open_ := by
  simp [CircuitBreaker.onFailure, h]

lemma onFailure_lf (cb : CircuitBreaker) (now : Int) :
    (cb.onFailure now).last_failure_time = some now := rfl

/-- From a closed breaker, a run of consecutive failing calls whose length
brings the counter exactly to `fail_max` leaves the breaker open with the
counter at `fail_max`. -/
lemma runFails_opens (l : List (Int × PyExc)) :
    ∀ cb : CircuitBreaker, cb.state = CircuitState.closed →
      cb.failure_count + l.length = cb.fail_max → l ≠ [] →
      (runFails cb l).state = CircuitState.open_ ∧
      (runFails cb l).failure_count = cb.fail_max := by
  induction l with
  | nil => intro cb _ _ hne; exact absurd rfl hne
  | cons p rest ih =>
      intro cb hcl hcnt _
      rw [runFails_cons, call_state_closed cb p.1 (Except.error p.2) hcl,
        runOp_error_cb]
      by_cases hrest : rest = []
      · subst hrest
        have hm : cb.fail_max ≤ cb.failure_count + 1 := by
          simp at hcnt
          omega
        rw [runFails_nil]
        refine ⟨onFailure_state_open cb p.1 hm, ?_⟩
        simp [CircuitBreaker.onFailure]
        simp at hcnt
        omega
      · have hlt : ¬ cb.fail_max ≤ cb.failure_count + 1 := by
          have : 1 ≤ rest.length := by
            cases rest with
            | nil => exact absurd rfl hrest
            | cons _ _ => simp
          simp at hcnt
          omega
        have h1 : (cb.onFailure p.1).state = CircuitState.closed := by
          simp [CircuitBreaker.onFailure, hlt, hcl]
        have h2 : (cb.onFailure p.1).failure_count + rest.length =
            (cb.onFailure p.1).fail_max := by
          simp [CircuitBreaker.onFailure]
          simp at hcnt
          omega
        have := ih (cb.onFailure p.1) h1 h2 hrest
        simpa [CircuitBreaker.onFailure] using this

/-- C3: after `fail_max` consecutive failures (from a fresh breaker) the
state is open; while open and before `timeout_duration` has elapsed since
`last_failure_time`, a call raises the circuit-open error without invoking
the wrapped operation and without touching the state; once
`timeout_duration` has elapsed, the call proceeds as a half-open probe and
invokes the operation — success closes the breaker and zeroes the counter,
failure (for any breaker reachable from a fresh one) reopens it. -/
theorem claim_C3 :
    (∀ (fmax : Nat) (tdur : Int) (l : List (Int × PyExc)),
        1 ≤ fmax → l.length = fmax →
        (runFails (initCB fmax tdur) l).state = CircuitState.open_) ∧
    (∀ (cb : CircuitBreaker) (t now : Int) (op : Except PyExc Unit),
        cb.state = CircuitState.open_ → cb.last_failure_time = some t →
        now - t < cb.timeout_duration →
        cb.call now op =
          { outcome := Except.error circuitOpenExc, cb := cb, invoked := false }) ∧
    (∀ (cb : CircuitBreaker) (t now : Int) (op : Except PyExc Unit),
        cb.state = CircuitState.open_ → cb.last_failure_time = some t →
        cb.timeout_duration ≤ now - t →
        cb.call now op =
          CircuitBreaker.runOp { cb with state := CircuitState.half_open } now op ∧
        (cb.call now op).invoked = true ∧
        ((cb.call now (Except.ok ())).cb.state = CircuitState.closed ∧
         (cb.call now (Except.ok ())).cb.failure_count = 0)) ∧
    (∀ (fmax : Nat) (tdur : Int) (es : List CBEvent) (t now : Int) (e : PyExc),
        (runCBEvents (initCB fmax tdur) es).state = CircuitState.open_ →
        (runCBEvents (initCB fmax tdur) es).last_failure_time = some t →
        (runCBEvents (initCB fmax tdur) es).timeout_duration ≤ now - t →
        ((runCBEvents (initCB fmax tdur) es).call now (Except.error e)).cb.state =
          CircuitState.open_) := by
  refine ⟨?_, ?_, ?_, ?_⟩
  · intro fmax tdur l h1 hl
    have hne : l ≠ [] := by
      intro hnil
      rw [hnil] at hl
      simp at hl
      omega
    exact (runFails_opens l (initCB fmax tdur) rfl (by simp [initCB, hl]) hne).1
  · intro cb t now op hs hl hlt
    exact call_open_reject cb now op hs (shouldAttemptReset_false cb t now hl hlt)
  · intro cb t now op hs hl hge
    have hr := shouldAttemptReset_true cb t now hl hge
    refine ⟨call_open_probe cb now op hs hr, ?_, ?_⟩
    · rw [call_open_probe cb now op hs hr]
      exact runOp_invoked _ now op
    · rw [call_open_probe cb now (Except.ok ()) hs hr]
      exact runOp_ok_state _ now
  · intro fmax tdur es t now e hs hl hge
    have hgood : goodCB (runCBEvents (initCB fmax tdur) es) :=
      goodCB_reachable fmax tdur es
    have hfc := hgood (Or.inl hs)
    have hr := shouldAttemptReset_true _ t now hl hge
    rw [call_open_probe _ now (Except.error e) hs hr, runOp_error_cb]
    apply onFailure_state_open
    show (runCBEvents (initCB fmax tdur) es).fail_max ≤
      (runCBEvents (initCB fmax tdur) es).failure_count + 1
    omega

/-- Sample wrapped-operation error used by concrete instances. -/
def bmExc : PyExc := { cls := "Exception", msg := "boom" }

/-- Breaker obtained from a fresh one (fail_max 2, timeout 60) by two
consecutive failing calls at times 0 and 1. -/
def cbW : CircuitBreaker := runFails (initCB 2 60) [(0, bmExc), (1, bmExc)]

/-- Events producing `cbW`. -/
def cbWEvents : List CBEvent :=
  [CBEvent.callEv 0 (Except.error bmExc), CBEvent.callEv 1 (Except.error bmExc)]

theorem claim_C3_witness :
    (runFails (initCB 2 60) [((0:Int), bmExc), (1, bmExc)]).state = CircuitState.open_ ∧
    cbW.call 30 (Except.ok ()) =
      { outcome := Except.error circuitOpenExc, cb := cbW, invoked := false } ∧
    cbW.call 100 (Except.error bmExc) =
      CircuitBreaker.runOp { cbW with state := CircuitState.half_open } 100 (Except.error bmExc) ∧
    ((cbW.call 100 (Except.ok ())).cb.state = CircuitState.closed ∧
      (cbW.call 100 (Except.ok ())).cb.failure_count = 0) ∧
    ((runCBEvents (initCB 2 60) cbWEvents).call 100 (Except.error bmExc)).cb.state =
      CircuitState.open_ := by
  refine ⟨?_, ?_, ?_, ?_, ?_⟩
  · exact claim_C3.1 2 60 [(0, bmExc), (1, bmExc)] (by decide) rfl
  · exact claim_C3.2.1 cbW 1 30 (Except.ok ()) (by decide) (by decide) (by decide)
  · exact (claim_C3.2.2.1 cbW 1 100 (Except.error bmExc) (by decide) (by decide)
      (by decide)).1
  · exact (claim_C3.2.2.1 cbW 1 100 (Except.ok ()) (by decide) (by decide)
      (by decide)).2.2
  · exact claim_C3.2.2.2 2 60 cbWEvents 1 100 bmExc (by decide) (by decide) (by decide)

/-- C4: one failure while the breaker is half-open reopens it at once and
stamps `last_failure_time` with the failure instant, with no fresh
accumulation of `fail_max` failures. Stated both for the half-open probe a
reachable open breaker performs once its timeout elapsed, and for any
breaker observed in the half-open state (whose counter, by the reachability
invariant `goodCB`, has already reached `fail_max`). -/
theorem claim_C4 :
    (∀ (cb : CircuitBreaker) (now : Int) (e : PyExc),
        cb.state = CircuitState.half_open → cb.fail_max ≤ cb.failure_count →
        (cb.call now (Except.error e)).cb.state = CircuitState.open_ ∧
        (cb.call now (Except.error e)).cb.last_failure_time = some now) ∧
    (∀ (fmax : Nat) (tdur : Int) (es : List CBEvent) (now : Int) (e : PyExc),
        (runCBEvents (initCB fmax tdur) es).state = CircuitState.open_ →
        (runCBEvents (initCB fmax tdur) es).shouldAttemptReset now = true →
        ((runCBEvents (initCB fmax tdur) es).call now (Except.error e)).cb.state =
          CircuitState.open_ ∧
        ((runCBEvents (initCB fmax tdur) es).call now (Except.error e)).cb.last_failure_time =
          some now) := by
  constructor
  · intro cb now e hs hfc
    rw [call_state_half_open cb now (Except.error e) hs, runOp_error_cb]
    exact ⟨onFailure_state_open cb now (by omega), onFailure_lf cb now⟩
  · intro fmax tdur es now e hs hr
    have hgood : goodCB (runCBEvents (initCB fmax tdur) es) :=
      goodCB_reachable fmax tdur es
    have hfc := hgood (Or.inl hs)
    rw [call_open_probe _ now (Except.error e) hs hr, runOp_error_cb]
    constructor
    · apply onFailure_state_open
      show (runCBEvents (initCB fmax tdur) es).fail_max ≤
        (runCBEvents (initCB fmax tdur) es).failure_count + 1
      omega
    · exact onFailure_lf _ now

theorem claim_C4_witness :
    (({ fail_max := 2, timeout_duration := 60, failure_count := 2,
        last_failure_time := some 1,
        state := CircuitState.half_open } : CircuitBreaker).call 7
          (Except.error bmExc)).cb.state = CircuitState.open_ ∧
    ((runCBEvents (initCB 2 60) cbWEvents).call 100 (Except.error bmExc)).cb.state =
      CircuitState.open_ ∧
    ((runCBEvents (initCB 2 60) cbWEvents).call 100 (Except.error bmExc)).cb.last_failure_time =
      some 100 := by
  refine ⟨?_, ?_, ?_⟩
  · exact (claim_C4.1 _ 7 bmExc rfl (by decide)).1
  · exact (claim_C4.2 2 60 cbWEvents 100 bmExc (by decide) (by decide)).1
  · exact (claim_C4.2 2 60 cbWEvents 100 bmExc (by decide) (by decide)).2

/-- C5 as stated is false: the circuit-open rejection raises a plain
`Exception`, not a distinct error type. A wrapped operation failing with a
plain `Exception` (here message "boom") is re-raised with exactly the same
class as the circuit-open error, so the caller cannot distinguish the two
by type. -/
theorem claim_C5_counterexample :
    ((initCB 5 60).call 0 (Except.error bmExc)).outcome = Except.error bmExc ∧
    bmExc.cls = circuitOpenExc.cls := ⟨rfl, rfl⟩

/-- C5 amended: rejection while open (timeout not elapsed) raises the fixed
generic `Exception` with message "Service temporarily unavailable (circuit
breaker open)" without invoking the operation and without changing state —
distinguishable from a wrapped operation's error only by its message, not
by a distinct type; a failed wrapped operation's error is re-raised
unchanged after internal state is updated by `_on_failure`. -/
theorem claim_C5 :
    circuitOpenExc.cls = "Exception" ∧
    circuitOpenExc.msg = "Service temporarily unavailable (circuit breaker open)" ∧
    (∀ (cb : CircuitBreaker) (t now : Int) (op : Except PyExc Unit),
        cb.state = CircuitState.open_ → cb.last_failure_time = some t →
        now - t < cb.timeout_duration →
        cb.call now op =
          { outcome := Except.error circuitOpenExc, cb := cb, invoked := false }) ∧
    (∀ (cb : CircuitBreaker) (now : Int) (e : PyExc),
        cb.state = CircuitState.closed →
        cb.call now (Except.error e) =
          { outcome := Except.error e, cb := cb.onFailure now, invoked := true }) ∧
    (∀ (cb : CircuitBreaker) (now : Int) (e : PyExc),
        cb.state = CircuitState.open_ → cb.shouldAttemptReset now = true →
        cb.call now (Except.error e) =
          { outcome := Except.error e
            cb := CircuitBreaker.onFailure { cb with state := CircuitState.half_open } now
            invoked := true }) := by
  refine ⟨rfl, rfl, ?_, ?_, ?_⟩
  · intro cb t now op hs hl hlt
    exact call_open_reject cb now op hs (shouldAttemptReset_false cb t now hl hlt)
  · intro cb now e hs
    rw [call_state_closed cb now (Except.error e) hs]
    rfl
  · intro cb now e hs hr
    rw [call_open_probe cb now (Except.error e) hs hr]
    rfl

theorem claim_C5_witness :
    cbW.call 30 (Except.ok ()) =
      { outcome := Except.error circuitOpenExc, cb := cbW, invoked := false } ∧
    (initCB 5 60).call 0 (Except.error bmExc) =
      { outcome := Except.error bmExc
        cb := (initCB 5 60).onFailure 0
        invoked := true } ∧
    cbW.call 100 (Except.error bmExc) =
      { outcome := Except.error bmExc
        cb := CircuitBreaker.onFailure { cbW with state := CircuitState.half_open } 100
        invoked := true } := by
  refine ⟨?_, ?_, ?_⟩
  · exact claim_C5.2.2.1 cbW 1 30 (Except.ok ()) (by decide) (by decide) (by decide)
  · exact claim_C5.2.2.2.1 (initCB 5 60) 0 bmExc rfl
  · exact claim_C5.2.2.2.2 cbW 100 bmExc (by decide) (by decide)

/-- C6: against a fresh counter key (store reachable), each of the first
`max_requests` calls is allowed and the (`max_requests`+1)-th is rejected;
the rejected call's increment is kept (the counter reads `max_requests`+1
afterwards, nothing is rolled back); and the key's expiry is set by the
first increment and never touched by later ones (it still carries the
original `window` after any number of calls). -/
theorem claim_C6 (maxReq window : Nat) :
    (∀ k, 1 ≤ k → k ≤ maxReq → nthCheckAllowed maxReq window k = true) ∧
    nthCheckAllowed maxReq window (maxReq + 1) = false ∧
    (runChecks freshRL maxReq window (maxReq + 1)).count = maxReq + 1 ∧
    (∀ n, 1 ≤ n → (runChecks freshRL maxReq window n).ttl = some window) := by
  have hcnt : ∀ n, (runChecks freshRL maxReq window n).count = n := by
    intro n
    simpa [freshRL] using runChecks_count freshRL maxReq window n
  refine ⟨?_, ?_, hcnt (maxReq + 1), fun n hn => runChecks_ttl_fresh maxReq window n hn⟩
  · intro k h1 h2
    simp [nthCheckAllowed, check_rate_limit, increment_rate_limit, hcnt (k - 1)]
    omega
  · simp [nthCheckAllowed, check_rate_limit, increment_rate_limit, hcnt maxReq]

theorem claim_C6_witness :
    nthCheckAllowed 3 60 2 = true ∧
    nthCheckAllowed 3 60 4 = false ∧
    (runChecks freshRL 3 60 4).count = 4 ∧
    (runChecks freshRL 3 60 4).ttl = some 60 := by
  refine ⟨(claim_C6 3 60).1 2 (by decide) (by decide), (claim_C6 3 60).2.1,
    (claim_C6 3 60).2.2.1, (claim_C6 3 60).2.2.2 4 (by decide)⟩

/-- C7: the rate limiter fails open. If the Redis increment raises, the
`except` arm of `increment_rate_limit` reports count 0 and the decision of
`check_rate_limit` on that count allows the request; and if anything in the
body of `check_rate_limit` raises, its own `except` arm allows the request
directly. An infrastructure failure therefore never rejects a request. -/
theorem claim_C7 :
    (∀ (e : PyExc) (maxReq : Nat),
        rate_limit_decision (increment_rate_limit_failing (Except.error e)) maxReq = true) ∧
    (∀ e : PyExc, check_rate_limit_failing (Except.error e) = true) := by
  constructor
  · intro e maxReq
    simp [rate_limit_decision, increment_rate_limit_failing]
  · intro e
    rfl

/-- C8: the status-update path never creates a record. When no record
exists under the given `notification_id`, `update_notification_status`
reports failure and leaves the store untouched, and the route answers 404
with the store unchanged. -/
theorem claim_C8 :
    (∀ (store : StatusStore) (nid : String) (u : StatusUpdate),
        store nid = none → update_notification_status store nid u = (false, store)) ∧
    (∀ (store : StatusStore) (pref : String) (req : StatusUpdateRequest) (now : Int),
        (pref = "email" ∨ pref = "push") → store req.notification_id = none →
        (update_notification_status_route pref req now store).1 =
          UpdateResult.httpError 404
            ("Notification " ++ req.notification_id ++ " not found") ∧
        (update_notification_status_route pref req now store).2 = store) := by
  constructor
  · intro store nid u habs
    simp [update_notification_status, get_notification_status, habs]
  · intro store pref req now hpref habs
    rcases hpref with hp | hp <;>
      subst hp <;>
      simp [update_notification_status_route, update_notification_status,
        get_notification_status, habs]

/-- Empty status store used by concrete instances. -/
def emptyStatusStore : StatusStore := fun _ => none

theorem claim_C8_witness :
    update_notification_status emptyStatusStore "n9"
        { notification_id := "n9", status := "delivered", notification_type := "email",
          updated_at := 5, error_message := none } = (false, emptyStatusStore) ∧
    (update_notification_status_route "email"
        { notification_id := "n9", status := "delivered", timestamp := some 5,
          error := none } 7 emptyStatusStore).1 =
      UpdateResult.httpError 404 "Notification n9 not found" ∧
    (update_notification_status_route "email"
        { notification_id := "n9", status := "delivered", timestamp := some 5,
          error := none } 7 emptyStatusStore).2 = emptyStatusStore := by
  refine ⟨claim_C8.1 emptyStatusStore "n9" _ rfl, ?_, ?_⟩
  · exact (claim_C8.2 emptyStatusStore "email" _ 7 (Or.inl rfl) rfl).1
  · exact (claim_C8.2 emptyStatusStore "email" _ 7 (Or.inl rfl) rfl).2

/-- Existing record used to exhibit the C9 behaviour. -/
def c9rec : StatusData :=
  { notification_id := "n1", status := "pending", notification_type := "email",
    created_at := some 0, user_id := some "u1", template_code := some "welcome",
    updated_at := none, error_message := none }

/-- Store holding a record for "n1". -/
def c9store : StatusStore := fun k => if k = "n1" then some c9rec else none

/-- C9 as stated is false: a status record for "n1" exists, the store is
unreachable during the read, and the status-query route answers 404
not-found — the store failure is converted into another outcome rather
than surfaced. -/
theorem claim_C9_counterexample :
    c9store "n1" = some c9rec ∧
    get_notification_status_route false c9store "n1" =
      StatusGetResult.httpError 404 "Notification n1 not found" := ⟨rfl, rfl⟩

/-- C9 amended: when the key-value store is unreachable, a status read is
swallowed into `None` — so the status-query route reports 404 not-found
even for an existing `notification_id` — and a status write is reported
only as a `False` return value with nothing written. -/
theorem claim_C9 :
    (∀ (store : StatusStore) (nid : String),
        get_notification_status false store nid = none) ∧
    (∀ (store : StatusStore) (nid : String),
        get_notification_status_route false store nid =
          StatusGetResult.httpError 404 ("Notification " ++ nid ++ " not found")) ∧
    (∀ (store : StatusStore) (nid : String) (d : StatusData),
        set_notification_status false store nid d = (false, store)) :=
  ⟨fun _ _ => rfl, fun _ _ => rfl, fun _ _ _ => rfl⟩

/-- C10: the list route computes `total_pages = (total + limit - 1) //
limit` with no guard on `limit`, so every request with `limit = 0` hits a
`ZeroDivisionError`, which the handler's blanket `except Exception`
converts into the 500 internal-error response instead of a validation
error. -/
theorem claim_C10 (reachable : Bool) (store : List StatusData) (uid : String)
    (page : Int) :
    list_notifications reachable store uid page 0 =
      ListResult.httpError 500 "Failed to retrieve notifications" := by
  simp [list_notifications, pyFloorDiv]

/-!
Path lemmas for `send_notification`.
-/

lemma send_cache_hit (maxReq window : Nat) (uid corr : String)
    (req : NotificationRequest) (now nowCall : Int) (pub : Except PyExc Unit)
    (st : GatewayState) (r : SendResponse)
    (hrl : (check_rate_limit (st.rl uid) maxReq window).1 = true)
    (hhit : st.idemCache req.request_id = some r) :
    send_notification maxReq window uid corr req now nowCall pub st =
      (SendResult.accepted r,
       { st with rl := fun k =>
           if k = uid then (check_rate_limit (st.rl uid) maxReq window).2
           else st.rl k }) := by
  simp only [send_notification, hrl, if_true, hhit]

lemma send_pub_error (maxReq window : Nat) (uid corr : String)
    (req : NotificationRequest) (now nowCall : Int) (pub : Except PyExc Unit)
    (st : GatewayState) (e : PyExc)
    (hrl : (check_rate_limit (st.rl uid) maxReq window).1 = true)
    (hmiss : st.idemCache req.request_id = none)
    (herr : (st.breaker.call nowCall pub).outcome = Except.error e) :
    send_notification maxReq window uid corr req now nowCall pub st =
      (SendResult.httpError 503 "Notification service temporarily unavailable",
       { rl := fun k =>
           if k = uid then (check_rate_limit (st.rl uid) maxReq window).2
           else st.rl k
         idemCache := st.idemCache
         statusStore := st.statusStore
         published := st.published
         breaker := (st.breaker.call nowCall pub).cb
         nextId := st.nextId + 1 }) := by
  simp only [send_notification, hrl, if_true, hmiss, herr]

lemma send_success (maxReq window : Nat) (uid corr : String)
    (req : NotificationRequest) (now nowCall : Int) (pub : Except PyExc Unit)
    (st : GatewayState)
    (hrl : (check_rate_limit (st.rl uid) maxReq window).1 = true)
    (hmiss : st.idemCache req.request_id = none)
    (hok : (st.breaker.call nowCall pub).outcome = Except.ok ()) :
    send_notification maxReq window uid corr req now nowCall pub st =
      (SendResult.accepted (sendResponseFor req (mkNotificationId st.nextId)),
       { rl := fun k =>
           if k = uid then (check_rate_limit (st.rl uid) maxReq window).2
           else st.rl k
         idemCache := fun k =>
           if k = req.request_id
           then some (sendResponseFor req (mkNotificationId st.nextId))
           else st.idemCache k
         statusStore := fun k =>
           if k = mkNotificationId st.nextId
           then some (pendingStatus req (mkNotificationId st.nextId) now)
           else st.statusStore k
         published := st.published ++ [jobMessage corr req (mkNotificationId st.nextId) now]
         breaker := (st.breaker.call nowCall pub).cb
         nextId := st.nextId + 1 }) := by
  simp only [send_notification, hrl, if_true, hmiss, hok, set_notification_status,
    if_true]

/-- C1: a valid request accepted once (rate-allowed, no cached entry,
breaker closed, publish succeeds) and resubmitted with the same
`request_id` while the cache entry lives (and rate-allowed) gets back the
identical cached response, and the second submission publishes nothing,
generates no new notification id, and leaves the status store and the
idempotency cache untouched — the cached-response lookup short-circuits
every later step. -/
theorem claim_C1 (maxReq window : Nat) (uid corr : String)
    (req : NotificationRequest) (st : GatewayState) (t1 tc1 t2 tc2 : Int)
    (pub2 : Except PyExc Unit)
    (hmiss : st.idemCache req.request_id = none)
    (hrl1 : (check_rate_limit (st.rl uid) maxReq window).1 = true)
    (hcb : st.breaker.state = CircuitState.closed)
    (hrl2 : (check_rate_limit
        ((send_notification maxReq window uid corr req t1 tc1 (Except.ok ()) st).2.rl uid)
        maxReq window).1 = true) :
    ∃ r : SendResponse,
      (send_notification maxReq window uid corr req t1 tc1 (Except.ok ()) st).1 =
        SendResult.accepted r ∧
      (send_notification maxReq window uid corr req t2 tc2 pub2
        (send_notification maxReq window uid corr req t1 tc1 (Except.ok ()) st).2).1 =
        SendResult.accepted r ∧
      (send_notification maxReq window uid corr req t2 tc2 pub2
        (send_notification maxReq window uid corr req t1 tc1 (Except.ok ()) st).2).2.published =
        (send_notification maxReq window uid corr req t1 tc1 (Except.ok ()) st).2.published ∧
      (send_notification maxReq window uid corr req t2 tc2 pub2
        (send_notification maxReq window uid corr req t1 tc1 (Except.ok ()) st).2).2.nextId =
        (send_notification maxReq window uid corr req t1 tc1 (Except.ok ()) st).2.nextId ∧
      (send_notification maxReq window uid corr req t2 tc2 pub2
        (send_notification maxReq window uid corr req t1 tc1 (Except.ok ()) st).2).2.statusStore =
        (send_notification maxReq window uid corr req t1 tc1 (Except.ok ()) st).2.statusStore ∧
      (send_notification maxReq window uid corr req t2 tc2 pub2
        (send_notification maxReq window uid corr req t1 tc1 (Except.ok ()) st).2).2.idemCache =
        (send_notification maxReq window uid corr req t1 tc1 (Except.ok ()) st).2.idemCache := by
  have hok : (st.breaker.call tc1 (Except.ok ())).outcome = Except.ok () := by
    rw [call_state_closed st.breaker tc1 (Except.ok ()) hcb]
    rfl
  have h1 := send_success maxReq window uid corr req t1 tc1 (Except.ok ()) st
    hrl1 hmiss hok
  have hhit : (send_notification maxReq window uid corr req t1 tc1
      (Except.ok ()) st).2.idemCache req.request_id =
      some (sendResponseFor req (mkNotificationId st.nextId)) := by
    rw [h1]
    simp
  have h2 := send_cache_hit maxReq window uid corr req t2 tc2 pub2 _ _ hrl2 hhit
  exact ⟨sendResponseFor req (mkNotificationId st.nextId),
    by rw [h1], by rw [h2], by rw [h2], by rw [h2], by rw [h2], by rw [h2]⟩

/-- C2: when the breaker-guarded publish raises (circuit open, or the
publish itself failing), the route answers 503 and the status write never
runs — the status store, the published messages and the idempotency cache
are exactly as before the request. -/
theorem claim_C2 (maxReq window : Nat) (uid corr : String)
    (req : NotificationRequest) (st : GatewayState) (now nowCall : Int)
    (pub : Except PyExc Unit) (e : PyExc)
    (hrl : (check_rate_limit (st.rl uid) maxReq window).1 = true)
    (hmiss : st.idemCache req.request_id = none)
    (herr : (st.breaker.call nowCall pub).outcome = Except.error e) :
    (send_notification maxReq window uid corr req now nowCall pub st).1 =
      SendResult.httpError 503 "Notification service temporarily unavailable" ∧
    (send_notification maxReq window uid corr req now nowCall pub st).2.statusStore =
      st.statusStore ∧
    (send_notification maxReq window uid corr req now nowCall pub st).2.published =
      st.published ∧
    (send_notification maxReq window uid corr req now nowCall pub st).2.idemCache =
      st.idemCache := by
  have h := send_pub_error maxReq window uid corr req now nowCall pub st e
    hrl hmiss herr
  exact ⟨by rw [h], by rw [h], by rw [h], by rw [h]⟩

/-- Gateway state with empty stores and a fresh breaker. -/
def st0W : GatewayState :=
  { rl := fun _ => freshRL
    idemCache := fun _ => none
    statusStore := fun _ => none
    published := []
    breaker := initCB 5 60
    nextId := 0 }

/-- Sample valid request. -/
def reqW : NotificationRequest :=
  { notification_type := "email"
    user_id := "u1"
    template_code := "welcome"
    variables_ := { name := "John", link := "https://example.com/verify", meta := none }
    request_id := "req-1"
    priority := 1
    metadata := none }

theorem claim_C1_witness :
    st0W.idemCache reqW.request_id = none ∧
    (check_rate_limit (st0W.rl "u1") 100 60).1 = true ∧
    st0W.breaker.state = CircuitState.closed ∧
    (check_rate_limit
      ((send_notification 100 60 "u1" "c1" reqW 0 0 (Except.ok ()) st0W).2.rl "u1")
      100 60).1 = true ∧
    (∃ r : SendResponse,
      (send_notification 100 60 "u1" "c1" reqW 0 0 (Except.ok ()) st0W).1 =
        SendResult.accepted r ∧
      (send_notification 100 60 "u1" "c1" reqW 5 5 (Except.error bmExc)
        (send_notification 100 60 "u1" "c1" reqW 0 0 (Except.ok ()) st0W).2).1 =
        SendResult.accepted r ∧
      (send_notification 100 60 "u1" "c1" reqW 5 5 (Except.error bmExc)
        (send_notification 100 60 "u1" "c1" reqW 0 0 (Except.ok ()) st0W).2).2.published =
        (send_notification 100 60 "u1" "c1" reqW 0 0 (Except.ok ()) st0W).2.published ∧
      (send_notification 100 60 "u1" "c1" reqW 5 5 (Except.error bmExc)
        (send_notification 100 60 "u1" "c1" reqW 0 0 (Except.ok ()) st0W).2).2.nextId =
        (send_notification 100 60 "u1" "c1" reqW 0 0 (Except.ok ()) st0W).2.nextId ∧
      (send_notification 100 60 "u1" "c1" reqW 5 5 (Except.error bmExc)
        (send_notification 100 60 "u1" "c1" reqW 0 0 (Except.ok ()) st0W).2).2.statusStore =
        (send_notification 100 60 "u1" "c1" reqW 0 0 (Except.ok ()) st0W).2.statusStore ∧
      (send_notification 100 60 "u1" "c1" reqW 5 5 (Except.error bmExc)
        (send_notification 100 60 "u1" "c1" reqW 0 0 (Except.ok ()) st0W).2).2.idemCache =
        (send_notification 100 60 "u1" "c1" reqW 0 0 (Except.ok ()) st0W).2.idemCache) := by
  refine ⟨rfl, by decide, rfl, by decide, ?_⟩
  have hx := claim_C1 100 60 "u1" "c1" reqW st0W 0 0 5 5 (Except.error bmExc)
    rfl (by decide) rfl (by decide)
  exact hx

theorem claim_C2_witness :
    (check_rate_limit (st0W.rl "u1") 100 60).1 = true ∧
    st0W.idemCache reqW.request_id = none ∧
    (st0W.breaker.call 0 (Except.error bmExc)).outcome = Except.error bmExc ∧
    (send_notification 100 60 "u1" "c1" reqW 0 0 (Except.error bmExc) st0W).1 =
      SendResult.httpError 503 "Notification service temporarily unavailable" ∧
    (send_notification 100 60 "u1" "c1" reqW 0 0 (Except.error bmExc) st0W).2.statusStore =
      st0W.statusStore ∧
    (send_notification 100 60 "u1" "c1" reqW 0 0 (Except.error bmExc) st0W).2.published =
      st0W.published := by
  have hx := claim_C2 100 60 "u1" "c1" reqW st0W 0 0 (Except.error bmExc) bmExc
    (by decide) rfl rfl
  exact ⟨by decide, rfl, rfl, hx.1, hx.2.1, hx.2.2.1⟩
